import Mathlib

/-!
Shallow embedding of the DNS-over-HTTPS proxy worker (`src/workers.js`):
the provider registry, weighted random selection, request translation,
the primary dispatch path and the sequential failover loop, together
with proofs of the routing, selection and header-rewriting properties.

Effectful platform operations are made explicit arguments:
* the upstream network is an oracle `net : Provider → UpstreamOutcome`
  giving, for each provider, either a thrown transport error or the
  upstream HTTP response (each provider is contacted at most once per
  inbound request, so a per-provider oracle is faithful);
* the draw `Math.random() * totalWeight` is the argument `random : ℚ`;
* `Date.now()` is the argument `now` (epoch milliseconds);
* the single-use inbound body stream is threaded as a `bodyUsed` flag:
  re-reading a consumed body rejects, as in the Workers runtime;
* every run returns, besides the client response, a trace of the
  observable events (provider selected, candidate try-block entered,
  upstream fetch issued), so "no upstream call happens before X"
  statements are about the trace.
-/

/-- One entry of the `DOH_PROVIDERS` registry: name, url, weight. -/
structure Provider where
  name : String
  url : String
  weight : Nat
deriving DecidableEq

/-- JS `Headers` are modelled as ordered name/value pairs with
case-insensitive name matching. -/
abbrev HeaderList := List (String × String)

/-- Case-insensitive header-name key: the name's characters lowercased. -/
def headerNameKey (s : String) : List Char :=
  s.toList.map Char.toLower

/-- `Headers.get`: value of the first pair whose name matches
case-insensitively. -/
def headerGet : HeaderList → String → Option String
  | [], _ => none
  | kv :: hs, k =>
    if headerNameKey kv.1 == headerNameKey k then some kv.2 else headerGet hs k

/-- `Headers.set`: overwrite a header, modelled as remove-then-append;
observationally equal to in-place replacement under `headerGet`. -/
def headerSet (hs : HeaderList) (k v : String) : HeaderList :=
  hs.filter (fun kv => headerNameKey kv.1 != headerNameKey k) ++ [(k, v)]

/-- An upstream HTTP response as seen by `fetch`. -/
structure UpstreamResponse where
  status : Nat
  statusText : String
  headers : HeaderList
  body : List Nat
deriving DecidableEq

/-- Outcome of one upstream `fetch`: a thrown transport error or a
response (of any status). -/
inductive UpstreamOutcome where
  | throws
  | response (uresp : UpstreamResponse)
deriving DecidableEq

/-- The inbound request descriptor: method string, parsed URL path and raw
query string (`url.search`, empty or starting with `?`), headers, and the
body bytes of its single-use stream. -/
structure InboundRequest where
  method : String
  pathname : String
  search : String
  headers : HeaderList
  body : List Nat
deriving DecidableEq

/-- The translated upstream request built by `new Request(targetUrl, ...)`. -/
structure UpstreamRequest where
  url : String
  method : String
  headers : HeaderList
  body : Option (List Nat)
deriving DecidableEq

/-- Client-facing response bodies. The two static HTML documents are opaque
presentation payloads (the spec scopes them out), so they are constructor
tokens rather than inlined markup; `exception` marks the unreachable
selection-of-empty-registry branch. -/
inductive ResponseBody where
  | text (s : String)
  | stream (bytes : List Nat)
  | htmlLanding
  | htmlDnsEncoding
  | empty
  | exception
deriving DecidableEq

/-- The client-facing response descriptor. -/
structure WResponse where
  status : Nat
  statusText : String
  headers : HeaderList
  body : ResponseBody
deriving DecidableEq

/-- `new Response(s, \x7b status \x7d)`: text body, default status text, no
explicitly set headers. -/
def textResponse (s : String) (status : Nat) : WResponse :=
  { status := status, statusText := "", headers := [], body := ResponseBody.text s }

/-- Observable events of one inbound-request handling, in order. -/
inductive Event where
  | select (p : Provider)
  | attempt (p : Provider)
  | fetch (p : Provider) (ureq : UpstreamRequest)
deriving DecidableEq

/-- Providers whose candidate try-block was entered, in order. -/
def attemptedProviders : List Event → List Provider
  | [] => []
  | Event.attempt p :: es => p :: attemptedProviders es
  | Event.select _ :: es => attemptedProviders es
  | Event.fetch _ _ :: es => attemptedProviders es

/-- Providers to which an upstream fetch was actually issued, in order. -/
def fetchedProviders : List Event → List Provider
  | [] => []
  | Event.fetch p _ :: es => p :: fetchedProviders es
  | Event.select _ :: es => fetchedProviders es
  | Event.attempt _ :: es => fetchedProviders es

/-- The `DOH_PROVIDERS` registry constant (src/workers.js lines 8-55). -/
def DOH_PROVIDERS : List Provider :=
  [⟨"Cloudflare", "https://cloudflare-dns.com/dns-query", 20⟩,
   ⟨"Google", "https://dns.google/dns-query", 15⟩,
   ⟨"Quad9", "https://dns.quad9.net/dns-query", 15⟩,
   ⟨"OpenDNS", "https://doh.opendns.com/dns-query", 10⟩,
   ⟨"AdGuard", "https://dns.adguard.com/dns-query", 10⟩,
   ⟨"ControlD", "https://freedns.controld.com/p2", 10⟩,
   ⟨"Mullvad", "https://adblock.dns.mullvad.net/dns-query", 10⟩,
   ⟨"NextDNS", "https://dns.nextdns.io/dns-query", 10⟩]

/-- Cache TTL in seconds (src/workers.js line 58). -/
def CACHE_TTL : Nat := 300

/-- `providers.reduce((sum, provider) => sum + provider.weight, 0)`. -/
def totalWeight (providers : List Provider) : Nat :=
  providers.foldl (fun sum p => sum + p.weight) 0

/-- The scanning loop of `selectProvider`: return the first provider whose
weight exceeds the running draw, else subtract the weight and continue. -/
def selectLoop : List Provider → ℚ → Option Provider
  | [], _ => none
  | p :: ps, random =>
    if random < (p.weight : ℚ) then some p else selectLoop ps (random - (p.weight : ℚ))

/-- `selectProvider` (src/workers.js lines 913-926): weighted random
selection; the trailing `return providers[0]` is the defensive fallback
taken only when the loop falls through. -/
def selectProvider (providers : List Provider) (random : ℚ) : Option Provider :=
  match selectLoop providers random with
  | some p => some p
  | none => providers.head?

/-- `Response.ok`: status in the 2xx range. -/
def respOk (uresp : UpstreamResponse) : Bool :=
  decide (200 ≤ uresp.status) && decide (uresp.status ≤ 299)

/-- Split a character list on a separator, keeping empty chunks, as
query-string splitting on `&` does. -/
def splitOnSep (sep : Char) : List Char → List (List Char)
  | [] => [[]]
  | c :: cs =>
    match splitOnSep sep cs with
    | [] => [[]]
    | chunk :: rest =>
      if c = sep then [] :: chunk :: rest else (c :: chunk) :: rest

/-- `url.searchParams.has(key)`: some `&`-separated component of the raw
query string has `key` as the part before its first `=`. (Keys relevant
here contain no percent-escapes or `+`, on which decoding is the
identity.) -/
def searchHasParam (search key : String) : Bool :=
  let cs := match search.toList with
    | '?' :: rest => rest
    | cs => cs
  (splitOnSep '&' cs).any (fun kv => kv.takeWhile (fun c => c != '=') == key.toList)

/-- Header translation shared by the primary attempt (lines 110-120) and
each failover attempt (lines 936-942): copy the inbound headers, force
`Content-Type` for POST or `Accept` otherwise, and set the proxy
`User-Agent`. -/
def translateHeaders (req : InboundRequest) : HeaderList :=
  headerSet
    (if req.method = "POST" then
      headerSet req.headers "Content-Type" "application/dns-message"
    else
      headerSet req.headers "Accept" "application/dns-message")
    "User-Agent" "DoH-Proxy-Worker/1.0"

/-- The translated upstream request: target URL is the provider URL with
the raw inbound query string appended; body is the inbound bytes for POST
and absent otherwise. -/
def mkUpstreamRequest (req : InboundRequest) (provider : Provider) : UpstreamRequest :=
  { url := provider.url ++ req.search
    method := req.method
    headers := translateHeaders req
    body := if req.method = "POST" then some req.body else none }

/-- `Date.prototype.toUTCString` on `new Date(ms)`, modelled as an
injective rendering of the epoch-millisecond instant (the exact RFC-1123
text is a JS library concern; only which instant is rendered matters). -/
def toUTCStringModel (ms : Nat) : String :=
  toString ms

/-- The four headers forced onto every successful response (lines 137-142
and 955-958): CORS headers plus the fixed cache-control directive. -/
def corsifyHeaders (hs : HeaderList) : HeaderList :=
  headerSet
    (headerSet
      (headerSet
        (headerSet hs "Access-Control-Allow-Origin" "*")
        "Access-Control-Allow-Methods" "GET, POST, OPTIONS")
      "Access-Control-Allow-Headers" "Content-Type, Accept")
    "Cache-Control" ("public, max-age=" ++ toString CACHE_TTL)

/-- Response built on the primary-success path (lines 134-149): status,
status text and body passed through, forced headers plus `Expires` at
`now + CACHE_TTL` seconds. -/
def primaryResponse (uresp : UpstreamResponse) (now : Nat) : WResponse :=
  { status := uresp.status
    statusText := uresp.statusText
    headers := headerSet (corsifyHeaders uresp.headers) "Expires"
      (toUTCStringModel (now + CACHE_TTL * 1000))
    body := ResponseBody.stream uresp.body }

/-- Response built on the failover-success path (lines 954-964): as the
primary one but with no `Expires` header added. -/
def fallbackSuccessResponse (uresp : UpstreamResponse) : WResponse :=
  { status := uresp.status
    statusText := uresp.statusText
    headers := corsifyHeaders uresp.headers
    body := ResponseBody.stream uresp.body }

/-- `DOH_PROVIDERS.filter(p => p.name !== failedProvider.name)`
(line 930): the failover candidate list. -/
def fallbackCandidates (registry : List Provider) (failedProvider : Provider) : List Provider :=
  registry.filter (fun p => decide (p.name ≠ failedProvider.name))

/-- The loop body of `tryFallbackProviders` (lines 932-970), threading the
single-use-body state: for a POST whose body was already consumed, the
`await request.arrayBuffer()` re-read rejects inside the candidate's try
block, before any upstream request is built. -/
def tryFallbackLoop (req : InboundRequest) (net : Provider → UpstreamOutcome) :
    List Provider → Bool → WResponse × List Event
  | [], _ => (textResponse "All DNS providers are unavailable" 503, [])
  | provider :: rest, bodyUsed =>
    if req.method = "POST" ∧ bodyUsed = true then
      let r := tryFallbackLoop req net rest bodyUsed
      (r.1, Event.attempt provider :: r.2)
    else
      let ureq := mkUpstreamRequest req provider
      let bodyUsed' := bodyUsed || decide (req.method = "POST")
      match net provider with
      | UpstreamOutcome.response uresp =>
        if respOk uresp = true then
          (fallbackSuccessResponse uresp,
           [Event.attempt provider, Event.fetch provider ureq])
        else
          let r := tryFallbackLoop req net rest bodyUsed'
          (r.1, Event.attempt provider :: Event.fetch provider ureq :: r.2)
      | UpstreamOutcome.throws =>
        let r := tryFallbackLoop req net rest bodyUsed'
        (r.1, Event.attempt provider :: Event.fetch provider ureq :: r.2)

/-- `tryFallbackProviders` (lines 929-974): walk the candidate list in
registry order; first 2xx response wins; exhaustion yields the 503. -/
def tryFallbackProviders (req : InboundRequest) (failedProvider : Provider)
    (net : Provider → UpstreamOutcome) (bodyUsed : Bool) : WResponse × List Event :=
  tryFallbackLoop req net (fallbackCandidates DOH_PROVIDERS failedProvider) bodyUsed

/-- The observable outcome of one failover candidate's try block under
body state `bodyUsed`: for a POST with consumed body the attempt throws at
the body re-read; otherwise it is the network outcome for that provider. -/
def attemptOutcome (req : InboundRequest) (bodyUsed : Bool)
    (net : Provider → UpstreamOutcome) (p : Provider) : UpstreamOutcome :=
  if req.method = "POST" ∧ bodyUsed = true then UpstreamOutcome.throws else net p

/-- The primary attempt (lines 105-153): build the translated request (for
POST this consumes the inbound body), fetch; a response of any status is
returned to the client; a thrown transport error transfers control to
`tryFallbackProviders` with this provider excluded. -/
def forwardToPrimary (req : InboundRequest) (selectedProvider : Provider) (now : Nat)
    (net : Provider → UpstreamOutcome) : WResponse × List Event :=
  let ureq := mkUpstreamRequest req selectedProvider
  match net selectedProvider with
  | UpstreamOutcome.response uresp =>
    (primaryResponse uresp now,
     [Event.attempt selectedProvider, Event.fetch selectedProvider ureq])
  | UpstreamOutcome.throws =>
    let r := tryFallbackProviders req selectedProvider net (decide (req.method = "POST"))
    (r.1, Event.attempt selectedProvider :: Event.fetch selectedProvider ureq :: r.2)

/-- Lines 102-153: select the primary provider, then run the primary
attempt. The `none` branch is unreachable for the non-empty registry; it
models the uncaught TypeError a worker surfaces as a 500. -/
def dispatchCore (req : InboundRequest) (random : ℚ) (now : Nat)
    (net : Provider → UpstreamOutcome) : WResponse × List Event :=
  match selectProvider DOH_PROVIDERS random with
  | none =>
    ({ status := 500, statusText := "", headers := [], body := ResponseBody.exception }, [])
  | some selectedProvider =>
    let r := forwardToPrimary req selectedProvider now net
    (r.1, Event.select selectedProvider :: r.2)

/-- CORS preflight response (lines 900-910). -/
def handleCORS : WResponse :=
  { status := 204, statusText := ""
    headers := [("Access-Control-Allow-Origin", "*"),
                ("Access-Control-Allow-Methods", "GET, POST, OPTIONS"),
                ("Access-Control-Allow-Headers", "Content-Type, Accept"),
                ("Access-Control-Max-Age", "86400")]
    body := ResponseBody.empty }

/-- Landing page (lines 157-688): static HTML, opaque here. -/
def serveLandingPage : WResponse :=
  { status := 200, statusText := ""
    headers := [("Content-Type", "text/html; charset=utf-8"),
                ("Cache-Control", "public, max-age=3600")]
    body := ResponseBody.htmlLanding }

/-- Encoding-explanation page (lines 691-897): static HTML, opaque here. -/
def serveDNSEncodingExplanation : WResponse :=
  { status := 200, statusText := ""
    headers := [("Content-Type", "text/html; charset=utf-8"),
                ("Cache-Control", "public, max-age=3600")]
    body := ResponseBody.htmlDnsEncoding }

/-- `handleRequest` (src/workers.js lines 66-154): page routes, CORS
preflight, endpoint and method validation, the GET `dns`-parameter check,
then provider selection and forwarding. -/
def handleRequest (req : InboundRequest) (random : ℚ) (now : Nat)
    (net : Provider → UpstreamOutcome) : WResponse × List Event :=
  if req.pathname = "/" then (serveLandingPage, [])
  else if req.pathname = "/dns-encoding" then (serveDNSEncodingExplanation, [])
  else if req.method = "OPTIONS" then (handleCORS, [])
  else if req.pathname ≠ "/dns-query" then
    (textResponse "Invalid endpoint. Use /dns-query" 400, [])
  else if ¬ req.method = "GET" ∧ ¬ req.method = "POST" then
    (textResponse "Method not allowed. Use GET or POST." 405, [])
  else if req.method = "GET" ∧ searchHasParam req.search "dns" = false then
    (textResponse "Missing DNS query parameter" 400, [])
  else dispatchCore req random now net

/-- Spec-side reformulation of weighted selection (spec section 4.2,
first phrasing): walk the sequence accumulating weight and return the
first provider whose cumulative-weight interval `[acc, acc + w)` contains
the draw. -/
def selectByCumulativeAux : List Provider → ℚ → ℚ → Option Provider
  | [], _, _ => none
  | p :: ps, acc, random =>
    if acc ≤ random ∧ random < acc + (p.weight : ℚ) then some p
    else selectByCumulativeAux ps (acc + (p.weight : ℚ)) random

/-- Spec-side weighted selection by cumulative intervals, started at 0. -/
def selectByCumulative (providers : List Provider) (random : ℚ) : Option Provider :=
  selectByCumulativeAux providers 0 random

/-! Concrete fixtures used to instantiate the theorems. -/

/-- The first registry entry. -/
def cloudflareP : Provider :=
  ⟨"Cloudflare", "https://cloudflare-dns.com/dns-query", 20⟩

/-- The second registry entry. -/
def googleP : Provider :=
  ⟨"Google", "https://dns.google/dns-query", 15⟩

/-- The third registry entry. -/
def quad9P : Provider :=
  ⟨"Quad9", "https://dns.quad9.net/dns-query", 15⟩

/-- A well-formed GET DNS query request. -/
def sampleGet : InboundRequest :=
  ⟨"GET", "/dns-query", "?dns=AAABAAABAAAAAAAA", [("Accept", "*/*")], []⟩

/-- A POST DNS query request with a binary body. -/
def samplePost : InboundRequest :=
  ⟨"POST", "/dns-query", "", [("X-Custom", "v")], [0, 1, 2]⟩

/-- A 200 upstream response. -/
def sampleOk : UpstreamResponse :=
  ⟨200, "OK", [("Content-Type", "application/dns-message")], [1, 2, 3]⟩

/-- A network where every provider fails with a transport error. -/
def netAllThrow : Provider → UpstreamOutcome :=
  fun _ => UpstreamOutcome.throws

/-- A network where every provider answers 200. -/
def netOkAll : Provider → UpstreamOutcome :=
  fun _ => UpstreamOutcome.response sampleOk

/-- A network where Google fails with a transport error and every other
provider answers 200. -/
def netGoogleThrows : Provider → UpstreamOutcome :=
  fun q => if q.name = "Google" then UpstreamOutcome.throws
    else UpstreamOutcome.response sampleOk

/-! Helper lemmas about header lookup after `headerSet`. -/

theorem headerGet_set_self (hs : HeaderList) (k k' v : String)
    (h : headerNameKey k' = headerNameKey k) :
    headerGet (headerSet hs k v) k' = some v := by
  induction hs with
  | nil => simp [headerSet, headerGet, h]
  | cons kv hs ih =>
    by_cases hk : headerNameKey kv.1 = headerNameKey k
    · simpa [headerSet, List.filter_cons, bne, hk] using ih
    · have hk' : headerNameKey kv.1 ≠ headerNameKey k' := by rw [h]; exact hk
      simpa [headerSet, List.filter_cons, bne, hk, headerGet, hk'] using ih

theorem headerGet_set_of_ne (hs : HeaderList) (k k' v : String)
    (h : headerNameKey k' ≠ headerNameKey k) :
    headerGet (headerSet hs k v) k' = headerGet hs k' := by
  induction hs with
  | nil =>
    have : headerNameKey k ≠ headerNameKey k' := fun hh => h hh.symm
    simp [headerSet, headerGet, this]
  | cons kv hs ih =>
    by_cases hk : headerNameKey kv.1 = headerNameKey k
    · have hk' : ¬ (headerNameKey k = headerNameKey k') := fun hh => h hh.symm
      simpa [headerSet, List.filter_cons, bne, hk, headerGet, hk'] using ih
    · by_cases hk2 : headerNameKey kv.1 = headerNameKey k'
      · simp [headerSet, List.filter_cons, bne, hk, headerGet, hk2, h]
      · simpa [headerSet, List.filter_cons, bne, hk, headerGet, hk2] using ih

/-! Forced headers after `corsifyHeaders`. -/

theorem headerGet_corsify_allow_origin (hs : HeaderList) :
    headerGet (corsifyHeaders hs) "Access-Control-Allow-Origin" = some "*" := by
  rw [corsifyHeaders, headerGet_set_of_ne _ _ _ _ (by decide),
    headerGet_set_of_ne _ _ _ _ (by decide), headerGet_set_of_ne _ _ _ _ (by decide),
    headerGet_set_self _ _ _ _ (by decide)]

theorem headerGet_corsify_allow_methods (hs : HeaderList) :
    headerGet (corsifyHeaders hs) "Access-Control-Allow-Methods" = some "GET, POST, OPTIONS" := by
  rw [corsifyHeaders, headerGet_set_of_ne _ _ _ _ (by decide),
    headerGet_set_of_ne _ _ _ _ (by decide), headerGet_set_self _ _ _ _ (by decide)]

theorem headerGet_corsify_allow_headers (hs : HeaderList) :
    headerGet (corsifyHeaders hs) "Access-Control-Allow-Headers" = some "Content-Type, Accept" := by
  rw [corsifyHeaders, headerGet_set_of_ne _ _ _ _ (by decide),
    headerGet_set_self _ _ _ _ (by decide)]

theorem headerGet_corsify_cache_control (hs : HeaderList) :
    headerGet (corsifyHeaders hs) "Cache-Control" = some "public, max-age=300" := by
  rw [corsifyHeaders, headerGet_set_self _ _ _ _ (by decide)]
  decide

theorem headerGet_corsify_expires (hs : HeaderList) :
    headerGet (corsifyHeaders hs) "Expires" = headerGet hs "Expires" := by
  rw [corsifyHeaders, headerGet_set_of_ne _ _ _ _ (by decide),
    headerGet_set_of_ne _ _ _ _ (by decide), headerGet_set_of_ne _ _ _ _ (by decide),
    headerGet_set_of_ne _ _ _ _ (by decide)]

/-! Weighted-selection lemmas. -/

theorem foldl_weight_shift (ps : List Provider) : ∀ a : Nat,
    ps.foldl (fun sum p => sum + p.weight) a
      = a + ps.foldl (fun sum p => sum + p.weight) 0 := by
  induction ps with
  | nil => intro a; simp
  | cons p ps ih =>
    intro a
    simp only [List.foldl_cons]
    rw [ih (a + p.weight), ih (0 + p.weight)]
    omega

theorem totalWeight_cons (p : Provider) (ps : List Provider) :
    totalWeight (p :: ps) = p.weight + totalWeight ps := by
  simp only [totalWeight, List.foldl_cons]
  rw [foldl_weight_shift ps (0 + p.weight)]
  omega

theorem selectLoop_hits (ps : List Provider) (random : ℚ)
    (h0 : 0 ≤ random) (hr : random < (totalWeight ps : ℚ)) :
    ∃ p, selectLoop ps random = some p ∧ p ∈ ps := by
  induction ps generalizing random with
  | nil =>
    exfalso
    simp only [totalWeight, List.foldl_nil, Nat.cast_zero] at hr
    linarith
  | cons p ps ih =>
    by_cases hlt : random < (p.weight : ℚ)
    · exact ⟨p, by simp [selectLoop, hlt], List.mem_cons_self p ps⟩
    · push_neg at hlt
      have htot : random < (p.weight : ℚ) + (totalWeight ps : ℚ) := by
        rw [totalWeight_cons] at hr
        push_cast at hr
        linarith
      obtain ⟨q, hq, hqmem⟩ := ih (random - (p.weight : ℚ))
        (by linarith) (by linarith)
      exact ⟨q, by simp [selectLoop, not_lt.mpr hlt, hq], List.mem_cons_of_mem p hqmem⟩

theorem selectLoop_eq_cumulativeAux (ps : List Provider) (acc random : ℚ)
    (hacc : acc ≤ random) :
    selectLoop ps (random - acc) = selectByCumulativeAux ps acc random := by
  induction ps generalizing acc with
  | nil => rfl
  | cons p ps ih =>
    by_cases h : random < acc + (p.weight : ℚ)
    · rw [selectLoop, if_pos (by linarith), selectByCumulativeAux, if_pos ⟨hacc, h⟩]
    · push_neg at h
      rw [selectLoop, if_neg (by push_neg; linarith), selectByCumulativeAux,
        if_neg (by rintro ⟨-, hc⟩; linarith), sub_sub]
      exact ih (acc + (p.weight : ℚ)) h

/-! Failover-loop lemmas. -/

theorem attemptOutcome_eq_net (req : InboundRequest) (b : Bool)
    (net : Provider → UpstreamOutcome) (q : Provider)
    (h : ¬ (req.method = "POST" ∧ b = true)) :
    attemptOutcome req b net q = net q := by
  rw [attemptOutcome, if_neg h]

theorem tryFallbackLoop_first_success (req : InboundRequest)
    (net : Provider → UpstreamOutcome) (cs₁ : List Provider) (c : Provider)
    (cs₂ : List Provider) (b : Bool) (uresp : UpstreamResponse)
    (hb : req.method = "POST" → b = true)
    (hfail : ∀ q ∈ cs₁, ∀ ur,
      attemptOutcome req b net q = UpstreamOutcome.response ur → respOk ur = false)
    (hc : attemptOutcome req b net c = UpstreamOutcome.response uresp)
    (hok : respOk uresp = true) :
    (tryFallbackLoop req net (cs₁ ++ c :: cs₂) b).1 = fallbackSuccessResponse uresp
    ∧ attemptedProviders (tryFallbackLoop req net (cs₁ ++ c :: cs₂) b).2 = cs₁ ++ [c] := by
  have hpost : ¬ req.method = "POST" := by
    intro hmP
    rw [attemptOutcome, if_pos ⟨hmP, hb hmP⟩] at hc
    simp at hc
  have hcond : ¬ (req.method = "POST" ∧ b = true) := fun hh => hpost hh.1
  have hc' : net c = UpstreamOutcome.response uresp := by
    rw [← attemptOutcome_eq_net req b net c hcond]; exact hc
  revert hfail
  induction cs₁ with
  | nil =>
    intro _
    simp [tryFallbackLoop, hcond, hc', hok, attemptedProviders]
  | cons q cs₁ ih =>
    intro hfail
    have hq := hfail q (List.mem_cons_self q cs₁)
    have ihr := ih (fun x hx => hfail x (List.mem_cons_of_mem q hx))
    cases hnq : net q with
    | throws =>
      simpa [tryFallbackLoop, hcond, hnq, hpost, attemptedProviders] using ihr
    | response ur =>
      have hur : respOk ur = false := hq ur (by
        rw [attemptOutcome_eq_net req b net q hcond]; exact hnq)
      simpa [tryFallbackLoop, hcond, hnq, hur, hpost, attemptedProviders] using ihr

theorem tryFallbackLoop_all_fail (req : InboundRequest)
    (net : Provider → UpstreamOutcome) (cs : List Provider) (b : Bool)
    (hb : req.method = "POST" → b = true)
    (hfail : ∀ q ∈ cs, ∀ ur,
      attemptOutcome req b net q = UpstreamOutcome.response ur → respOk ur = false) :
    (tryFallbackLoop req net cs b).1 = textResponse "All DNS providers are unavailable" 503
    ∧ attemptedProviders (tryFallbackLoop req net cs b).2 = cs := by
  revert hfail
  induction cs with
  | nil => intro _; exact ⟨rfl, rfl⟩
  | cons q cs ih =>
    intro hfail
    have hq := hfail q (List.mem_cons_self q cs)
    have ihr := ih (fun x hx => hfail x (List.mem_cons_of_mem q hx))
    by_cases hcond : req.method = "POST" ∧ b = true
    · simpa [tryFallbackLoop, hcond, attemptedProviders] using ihr
    · have hpost : ¬ req.method = "POST" := by
        intro hmP; exact hcond ⟨hmP, hb hmP⟩
      cases hnq : net q with
      | throws =>
        simpa [tryFallbackLoop, hcond, hnq, hpost, attemptedProviders] using ihr
      | response ur =>
        have hur : respOk ur = false := hq ur (by
          rw [attemptOutcome_eq_net req b net q hcond]; exact hnq)
        simpa [tryFallbackLoop, hcond, hnq, hur, hpost, attemptedProviders] using ihr

theorem tryFallbackLoop_post (req : InboundRequest)
    (net : Provider → UpstreamOutcome) (cs : List Provider)
    (hpost : req.method = "POST") :
    tryFallbackLoop req net cs true
      = (textResponse "All DNS providers are unavailable" 503, cs.map Event.attempt) := by
  induction cs with
  | nil => rfl
  | cons q cs ih => simp [tryFallbackLoop, hpost, ih]

theorem fetchedProviders_map_attempt (cs : List Provider) :
    fetchedProviders (cs.map Event.attempt) = [] := by
  induction cs with
  | nil => rfl
  | cons q cs ih => simpa [fetchedProviders] using ih

theorem attemptedProviders_map_attempt (cs : List Provider) :
    attemptedProviders (cs.map Event.attempt) = cs := by
  induction cs with
  | nil => rfl
  | cons q cs ih => simpa [attemptedProviders] using ih

theorem tryFallbackLoop_attempt_pos (req : InboundRequest)
    (net : Provider → UpstreamOutcome) (q : Provider) (cs : List Provider) (b : Bool) :
    0 < (attemptedProviders (tryFallbackLoop req net (q :: cs) b).2).length := by
  by_cases hcond : req.method = "POST" ∧ b = true
  · simp [tryFallbackLoop, hcond, attemptedProviders]
  · cases hnq : net q with
    | throws => simp [tryFallbackLoop, hcond, hnq, attemptedProviders]
    | response ur =>
      by_cases hok : respOk ur = true
      · simp [tryFallbackLoop, hcond, hnq, hok, attemptedProviders]
      · simp [tryFallbackLoop, hcond, hnq, hok, attemptedProviders]

theorem fallbackCandidates_DOH_ne_nil (p : Provider) :
    fallbackCandidates DOH_PROVIDERS p ≠ [] := by
  intro h
  by_cases hn : p.name = "Cloudflare"
  · have hmem : (⟨"Google", "https://dns.google/dns-query", 15⟩ : Provider)
        ∈ fallbackCandidates DOH_PROVIDERS p := by
      refine List.mem_filter.mpr ⟨by simp [DOH_PROVIDERS], ?_⟩
      rw [hn]; decide
    rw [h] at hmem
    exact absurd hmem (List.not_mem_nil _)
  · have hmem : (⟨"Cloudflare", "https://cloudflare-dns.com/dns-query", 20⟩ : Provider)
        ∈ fallbackCandidates DOH_PROVIDERS p := by
      refine List.mem_filter.mpr ⟨by simp [DOH_PROVIDERS], ?_⟩
      exact decide_eq_true (fun hh => hn hh.symm)
    rw [h] at hmem
    exact absurd hmem (List.not_mem_nil _)

/-! Dispatch unfolding lemmas. -/

theorem handleRequest_valid (req : InboundRequest) (random : ℚ) (now : Nat)
    (net : Provider → UpstreamOutcome)
    (hpath : req.pathname = "/dns-query")
    (hm : req.method = "GET" ∨ req.method = "POST")
    (hdns : req.method = "GET" → searchHasParam req.search "dns" = true) :
    handleRequest req random now net = dispatchCore req random now net := by
  have h1 : ¬ req.pathname = "/" := by rw [hpath]; decide
  have h2 : ¬ req.pathname = "/dns-encoding" := by rw [hpath]; decide
  have h3 : ¬ req.method = "OPTIONS" := by
    rcases hm with h | h <;> rw [h] <;> decide
  have h4 : ¬ req.pathname ≠ "/dns-query" := by rw [hpath]; simp
  have h5 : ¬ (¬ req.method = "GET" ∧ ¬ req.method = "POST") := by
    rcases hm with h | h <;> simp [h]
  have h6 : ¬ (req.method = "GET" ∧ searchHasParam req.search "dns" = false) := by
    rintro ⟨hg, hf⟩
    rw [hdns hg] at hf
    cases hf
  rw [handleRequest, if_neg h1, if_neg h2, if_neg h3, if_neg h4, if_neg h5, if_neg h6]

theorem dispatchCore_response (req : InboundRequest) (random : ℚ) (now : Nat)
    (net : Provider → UpstreamOutcome) (p : Provider) (uresp : UpstreamResponse)
    (hp : selectProvider DOH_PROVIDERS random = some p)
    (hresp : net p = UpstreamOutcome.response uresp) :
    dispatchCore req random now net
      = (primaryResponse uresp now,
         [Event.select p, Event.attempt p, Event.fetch p (mkUpstreamRequest req p)]) := by
  simp [dispatchCore, hp, forwardToPrimary, hresp]

theorem dispatchCore_throws (req : InboundRequest) (random : ℚ) (now : Nat)
    (net : Provider → UpstreamOutcome) (p : Provider)
    (hp : selectProvider DOH_PROVIDERS random = some p)
    (hthrow : net p = UpstreamOutcome.throws) :
    dispatchCore req random now net
      = ((tryFallbackProviders req p net (decide (req.method = "POST"))).1,
         Event.select p :: Event.attempt p :: Event.fetch p (mkUpstreamRequest req p)
           :: (tryFallbackProviders req p net (decide (req.method = "POST"))).2) := by
  simp [dispatchCore, hp, forwardToPrimary, hthrow]

/-- Claim C10: a GET to `/dns-query` whose query string has no `dns`
parameter is answered 400 immediately; the empty event trace shows that no
provider was selected and no upstream call was attempted. -/
theorem claim_C10_missing_dns_early_400 (req : InboundRequest) (random : ℚ)
    (now : Nat) (net : Provider → UpstreamOutcome)
    (hpath : req.pathname = "/dns-query")
    (hget : req.method = "GET")
    (hnodns : searchHasParam req.search "dns" = false) :
    handleRequest req random now net = (textResponse "Missing DNS query parameter" 400, []) := by
  have h1 : ¬ req.pathname = "/" := by rw [hpath]; decide
  have h2 : ¬ req.pathname = "/dns-encoding" := by rw [hpath]; decide
  have h3 : ¬ req.method = "OPTIONS" := by rw [hget]; decide
  have h4 : ¬ req.pathname ≠ "/dns-query" := by rw [hpath]; simp
  have h5 : ¬ (¬ req.method = "GET" ∧ ¬ req.method = "POST") := by simp [hget]
  rw [handleRequest, if_neg h1, if_neg h2, if_neg h3, if_neg h4, if_neg h5,
    if_pos ⟨hget, hnodns⟩]

theorem claim_C10_witness :
    handleRequest ⟨"GET", "/dns-query", "", [], []⟩ 0 0 (fun _ => UpstreamOutcome.throws)
      = (textResponse "Missing DNS query parameter" 400, []) :=
  claim_C10_missing_dns_early_400 _ 0 0 _ rfl rfl (by decide)

/-- Claim C5: `selectProvider` agrees with the spec-side first-matching-
cumulative-interval selection for every draw in `[0, totalWeight)` over
positive weights, and on the four-provider prefix with weights
`[20, 15, 15, 10]` returns the 1st provider at 18, the 2nd at 25 and the
3rd at 42. -/
theorem claim_C5_cumulative_selection :
    (∀ (ps : List Provider) (random : ℚ), (∀ p ∈ ps, 0 < p.weight) →
      0 ≤ random → random < (totalWeight ps : ℚ) →
      selectProvider ps random = selectByCumulative ps random)
    ∧ selectProvider (DOH_PROVIDERS.take 4) 18 = DOH_PROVIDERS[0]?
    ∧ selectProvider (DOH_PROVIDERS.take 4) 25 = DOH_PROVIDERS[1]?
    ∧ selectProvider (DOH_PROVIDERS.take 4) 42 = DOH_PROVIDERS[2]? := by
  refine ⟨?_, by decide, ?_, ?_⟩
  · intro ps random hw h0 hr
    obtain ⟨p, hp, -⟩ := selectLoop_hits ps random h0 hr
    have hcum := selectLoop_eq_cumulativeAux ps 0 random h0
    rw [sub_zero] at hcum
    rw [selectProvider, hp, selectByCumulative, ← hcum, hp]
  · norm_num [selectProvider, selectLoop, DOH_PROVIDERS]
  · norm_num [selectProvider, selectLoop, DOH_PROVIDERS]

theorem claim_C5_witness :
    selectProvider (DOH_PROVIDERS.take 4) 18 = selectByCumulative (DOH_PROVIDERS.take 4) 18 :=
  claim_C5_cumulative_selection.1 (DOH_PROVIDERS.take 4) 18 (by decide) (by decide) (by decide)

/-- Claim C6: for a non-empty sequence with positive weights and a draw in
`[0, totalWeight)`, the selection loop itself returns exactly one provider,
a member of the sequence, so the defensive `providers[0]` fallback branch
of `selectProvider` is never reached. -/
theorem claim_C6_selection_total_and_member (ps : List Provider) (random : ℚ)
    (hne : ps ≠ []) (hw : ∀ p ∈ ps, 0 < p.weight)
    (h0 : 0 ≤ random) (hr : random < (totalWeight ps : ℚ)) :
    ∃ p, selectLoop ps random = some p
      ∧ selectProvider ps random = some p ∧ p ∈ ps := by
  obtain ⟨p, hp, hmem⟩ := selectLoop_hits ps random h0 hr
  exact ⟨p, hp, by rw [selectProvider, hp], hmem⟩

theorem claim_C6_witness :
    ∃ p, selectLoop DOH_PROVIDERS 10 = some p
      ∧ selectProvider DOH_PROVIDERS 10 = some p ∧ p ∈ DOH_PROVIDERS :=
  claim_C6_selection_total_and_member DOH_PROVIDERS 10
    (by decide) (by decide) (by decide) (by decide)

/-- Claim C7: with unique provider names and `P` a member, the failover
candidate list is exactly the registry with `P` removed, in registry
order (an order-preserving sublist), with no weighting applied; its length
is one less than the registry's, so 7 for a registry of 8. -/
theorem claim_C7_fallback_candidates (registry : List Provider) (P : Provider)
    (hnames : (registry.map Provider.name).Nodup) (hmem : P ∈ registry) :
    fallbackCandidates registry P = registry.erase P
    ∧ P ∉ fallbackCandidates registry P
    ∧ List.Sublist (fallbackCandidates registry P) registry
    ∧ (fallbackCandidates registry P).length + 1 = registry.length
    ∧ (registry.length = 8 → (fallbackCandidates registry P).length = 7) := by
  have hnd : registry.Nodup := hnames.of_map
  have hinj := List.inj_on_of_nodup_map hnames
  have heq : fallbackCandidates registry P = registry.erase P := by
    rw [fallbackCandidates, hnd.erase_eq_filter P]
    apply List.filter_congr
    intro x hx
    by_cases hxP : x = P
    · subst hxP; simp
    · have hname : x.name ≠ P.name := fun hh => hxP (hinj hx hmem hh)
      simp [hname, hxP]
  have hlen : (fallbackCandidates registry P).length + 1 = registry.length := by
    have hpos : 0 < registry.length := List.length_pos.mpr (List.ne_nil_of_mem hmem)
    rw [heq, List.length_erase_of_mem hmem]
    omega
  refine ⟨heq, ?_, ?_, hlen, ?_⟩
  · rw [heq]
    exact hnd.not_mem_erase
  · rw [fallbackCandidates]
    exact List.filter_sublist registry
  · intro h8
    omega

theorem claim_C7_witness :
    (fallbackCandidates DOH_PROVIDERS
      ⟨"Cloudflare", "https://cloudflare-dns.com/dns-query", 20⟩).length = 7 :=
  (claim_C7_fallback_candidates DOH_PROVIDERS _ (by decide) (by decide)).2.2.2.2 rfl

/-- Claim C8: the translated upstream request targets the provider URL
with the raw inbound query string appended byte-for-byte, keeps the
method, carries the inbound headers with `Content-Type` forced for POST,
`Accept` forced for GET and the proxy `User-Agent` always set, leaves all
other header names untouched, and forwards the POST body bytes unchanged
(no body for GET). -/
theorem claim_C8_request_translation (req : InboundRequest) (p : Provider) :
    (mkUpstreamRequest req p).url = p.url ++ req.search
    ∧ (mkUpstreamRequest req p).method = req.method
    ∧ headerGet (mkUpstreamRequest req p).headers "User-Agent" = some "DoH-Proxy-Worker/1.0"
    ∧ (req.method = "POST" →
        headerGet (mkUpstreamRequest req p).headers "Content-Type"
          = some "application/dns-message"
        ∧ (mkUpstreamRequest req p).body = some req.body)
    ∧ (req.method = "GET" →
        headerGet (mkUpstreamRequest req p).headers "Accept"
          = some "application/dns-message"
        ∧ (mkUpstreamRequest req p).body = none)
    ∧ (∀ k : String, headerNameKey k ≠ headerNameKey "User-Agent" →
        headerNameKey k ≠ headerNameKey "Content-Type" →
        headerNameKey k ≠ headerNameKey "Accept" →
        headerGet (mkUpstreamRequest req p).headers k = headerGet req.headers k) := by
  refine ⟨rfl, rfl, ?_, ?_, ?_, ?_⟩
  · show headerGet (translateHeaders req) "User-Agent" = _
    rw [translateHeaders, headerGet_set_self _ _ _ _ rfl]
  · intro hP
    refine ⟨?_, ?_⟩
    · show headerGet (translateHeaders req) "Content-Type" = _
      rw [translateHeaders, headerGet_set_of_ne _ _ _ _ (by decide), if_pos hP,
        headerGet_set_self _ _ _ _ rfl]
    · show (if req.method = "POST" then some req.body else none) = some req.body
      rw [if_pos hP]
  · intro hG
    have hP : ¬ req.method = "POST" := by rw [hG]; decide
    refine ⟨?_, ?_⟩
    · show headerGet (translateHeaders req) "Accept" = _
      rw [translateHeaders, headerGet_set_of_ne _ _ _ _ (by decide), if_neg hP,
        headerGet_set_self _ _ _ _ rfl]
    · show (if req.method = "POST" then some req.body else none) = none
      rw [if_neg hP]
  · intro k hUA hCT hAcc
    show headerGet (translateHeaders req) k = _
    rw [translateHeaders, headerGet_set_of_ne _ _ _ _ hUA]
    by_cases hP : req.method = "POST"
    · rw [if_pos hP, headerGet_set_of_ne _ _ _ _ hCT]
    · rw [if_neg hP, headerGet_set_of_ne _ _ _ _ hAcc]

theorem claim_C8_witness :
    headerGet (mkUpstreamRequest ⟨"POST", "/dns-query", "", [], [7, 7]⟩
        ⟨"Cloudflare", "https://cloudflare-dns.com/dns-query", 20⟩).headers "Content-Type"
      = some "application/dns-message"
    ∧ (mkUpstreamRequest ⟨"POST", "/dns-query", "", [], [7, 7]⟩
        ⟨"Cloudflare", "https://cloudflare-dns.com/dns-query", 20⟩).body = some [7, 7] :=
  (claim_C8_request_translation _ _).2.2.2.1 rfl

/-- Claim C1: for a routed GET or POST to `/dns-query`, the router moves to
failover exactly when the primary attempt throws a transport error
(observably: some fallback candidate try-block is entered, i.e. the trace
holds at least two attempts); a primary response of any status, 2xx or
not, is returned to the client with the forced headers and only the
primary provider attempted. -/
theorem claim_C1_failover_iff_primary_throws (req : InboundRequest) (random : ℚ)
    (now : Nat) (net : Provider → UpstreamOutcome)
    (hpath : req.pathname = "/dns-query")
    (hm : req.method = "GET" ∨ req.method = "POST")
    (hdns : req.method = "GET" → searchHasParam req.search "dns" = true)
    (p : Provider) (hp : selectProvider DOH_PROVIDERS random = some p) :
    (net p = UpstreamOutcome.throws ↔
      2 ≤ (attemptedProviders (handleRequest req random now net).2).length)
    ∧ (∀ uresp, net p = UpstreamOutcome.response uresp →
        attemptedProviders (handleRequest req random now net).2 = [p]
        ∧ (handleRequest req random now net).1 = primaryResponse uresp now
        ∧ headerGet (handleRequest req random now net).1.headers
            "Access-Control-Allow-Origin" = some "*"
        ∧ headerGet (handleRequest req random now net).1.headers
            "Cache-Control" = some "public, max-age=300") := by
  have hdisp := handleRequest_valid req random now net hpath hm hdns
  constructor
  · constructor
    · intro hthrow
      rw [hdisp, dispatchCore_throws req random now net p hp hthrow]
      obtain ⟨c, cs, hcs⟩ := List.exists_cons_of_ne_nil (fallbackCandidates_DOH_ne_nil p)
      have hpos := tryFallbackLoop_attempt_pos req net c cs (decide (req.method = "POST"))
      simp only [attemptedProviders, List.length_cons]
      rw [tryFallbackProviders, hcs]
      omega
    · intro hlen
      cases hnp : net p with
      | throws => rfl
      | response uresp =>
        exfalso
        rw [hdisp, dispatchCore_response req random now net p uresp hp hnp] at hlen
        simp [attemptedProviders] at hlen
  · intro uresp hresp
    rw [hdisp, dispatchCore_response req random now net p uresp hp hresp]
    refine ⟨by simp [attemptedProviders], rfl, ?_, ?_⟩
    · simp only [primaryResponse]
      rw [headerGet_set_of_ne _ _ _ _ (by decide), headerGet_corsify_allow_origin]
    · simp only [primaryResponse]
      rw [headerGet_set_of_ne _ _ _ _ (by decide), headerGet_corsify_cache_control]

theorem claim_C1_witness :
    2 ≤ (attemptedProviders (handleRequest sampleGet 0 0 netAllThrow).2).length :=
  (claim_C1_failover_iff_primary_throws sampleGet 0 0 netAllThrow rfl (Or.inl rfl)
    (fun _ => by decide) cloudflareP (by decide)).1.mp rfl

/-- Claim C2: after a primary transport failure, the failover loop walks
the candidates in order; with every candidate before `c` failing (its
attempt throwing — including a POST body re-read — or answering non-2xx)
and `c` answering 2xx, the loop returns `c`'s response and attempts
exactly the failing prefix plus `c`: later candidates are never tried. -/
theorem claim_C2_first_success_wins (req : InboundRequest)
    (net : Provider → UpstreamOutcome) (failedProvider : Provider)
    (cs₁ : List Provider) (c : Provider) (cs₂ : List Provider)
    (uresp : UpstreamResponse)
    (hsplit : fallbackCandidates DOH_PROVIDERS failedProvider = cs₁ ++ c :: cs₂)
    (hfail : ∀ q ∈ cs₁, ∀ ur,
      attemptOutcome req (decide (req.method = "POST")) net q
        = UpstreamOutcome.response ur → respOk ur = false)
    (hc : attemptOutcome req (decide (req.method = "POST")) net c
        = UpstreamOutcome.response uresp)
    (hok : respOk uresp = true) :
    (tryFallbackProviders req failedProvider net (decide (req.method = "POST"))).1
      = fallbackSuccessResponse uresp
    ∧ attemptedProviders
        (tryFallbackProviders req failedProvider net (decide (req.method = "POST"))).2
      = cs₁ ++ [c] := by
  have hb : req.method = "POST" → decide (req.method = "POST") = true :=
    fun h => by simp [h]
  have hmain := tryFallbackLoop_first_success req net cs₁ c cs₂
    (decide (req.method = "POST")) uresp hb hfail hc hok
  rw [tryFallbackProviders, hsplit]
  exact hmain

theorem claim_C2_witness :
    (tryFallbackProviders sampleGet cloudflareP netGoogleThrows false).1
      = fallbackSuccessResponse sampleOk :=
  (claim_C2_first_success_wins sampleGet netGoogleThrows cloudflareP
    [googleP] quad9P (DOH_PROVIDERS.drop 3) sampleOk (by decide)
    (by
      intro q hq ur h
      rw [List.mem_singleton] at hq
      subst hq
      simp [attemptOutcome, netGoogleThrows, sampleGet, googleP] at h)
    (by decide) (by decide)).1

/-- Claim C3: when the primary attempt throws and every fallback candidate
throws or answers non-2xx, the router returns exactly the 503 response
with body "All DNS providers are unavailable", and the trace shows every
fallback candidate attempted exactly once. -/
theorem claim_C3_exhaustion_503 (req : InboundRequest) (random : ℚ)
    (now : Nat) (net : Provider → UpstreamOutcome)
    (hpath : req.pathname = "/dns-query")
    (hm : req.method = "GET" ∨ req.method = "POST")
    (hdns : req.method = "GET" → searchHasParam req.search "dns" = true)
    (p : Provider) (hp : selectProvider DOH_PROVIDERS random = some p)
    (hthrow : net p = UpstreamOutcome.throws)
    (hfail : ∀ q ∈ fallbackCandidates DOH_PROVIDERS p, ∀ ur,
      net q = UpstreamOutcome.response ur → respOk ur = false) :
    (handleRequest req random now net).1
      = textResponse "All DNS providers are unavailable" 503
    ∧ attemptedProviders (handleRequest req random now net).2
        = p :: fallbackCandidates DOH_PROVIDERS p
    ∧ ∀ q ∈ fallbackCandidates DOH_PROVIDERS p,
        (attemptedProviders (handleRequest req random now net).2).count q = 1 := by
  have hdisp := handleRequest_valid req random now net hpath hm hdns
  have hb : req.method = "POST" → decide (req.method = "POST") = true :=
    fun h => by simp [h]
  have hfail' : ∀ q ∈ fallbackCandidates DOH_PROVIDERS p, ∀ ur,
      attemptOutcome req (decide (req.method = "POST")) net q
        = UpstreamOutcome.response ur → respOk ur = false := by
    intro q hq ur hur
    by_cases hcond : req.method = "POST" ∧ decide (req.method = "POST") = true
    · rw [attemptOutcome, if_pos hcond] at hur
      simp at hur
    · rw [attemptOutcome, if_neg hcond] at hur
      exact hfail q hq ur hur
  obtain ⟨h503, hatt⟩ := tryFallbackLoop_all_fail req net
    (fallbackCandidates DOH_PROVIDERS p) (decide (req.method = "POST")) hb hfail'
  have hfb1 : (tryFallbackProviders req p net (decide (req.method = "POST"))).1
      = textResponse "All DNS providers are unavailable" 503 := h503
  have hfb2 : attemptedProviders
      (tryFallbackProviders req p net (decide (req.method = "POST"))).2
      = fallbackCandidates DOH_PROVIDERS p := hatt
  have hattFull : attemptedProviders (handleRequest req random now net).2
      = p :: fallbackCandidates DOH_PROVIDERS p := by
    rw [hdisp, dispatchCore_throws req random now net p hp hthrow]
    simp only [attemptedProviders]
    rw [hfb2]
  refine ⟨?_, hattFull, ?_⟩
  · rw [hdisp, dispatchCore_throws req random now net p hp hthrow]
    exact hfb1
  · intro q hq
    have hDOH : DOH_PROVIDERS.Nodup := by decide
    have hnd : (fallbackCandidates DOH_PROVIDERS p).Nodup :=
      List.Nodup.sublist (List.filter_sublist _) hDOH
    have hcount1 := List.count_eq_one_of_mem hnd hq
    have hqname : q.name ≠ p.name := of_decide_eq_true (List.mem_filter.mp hq).2
    have hpq : (p == q) = false :=
      beq_eq_false_iff_ne.mpr (fun hh => hqname (by rw [hh]))
    rw [hattFull, List.count_cons, hcount1, hpq]
    simp

theorem claim_C3_witness :
    (handleRequest sampleGet 0 0 netAllThrow).1
      = textResponse "All DNS providers are unavailable" 503 :=
  (claim_C3_exhaustion_503 sampleGet 0 0 netAllThrow rfl (Or.inl rfl)
    (fun _ => by decide) cloudflareP (by decide) rfl
    (fun q _ ur h => nomatch h)).1

/-- Claim C4: for a POST whose primary attempt throws, the body was
already consumed by the primary attempt, so every failover candidate's
body re-read throws inside its try block: each candidate is attempted but
no fallback upstream fetch is ever issued (the only fetch in the trace is
the primary one) and the request ends in the 503 response. -/
theorem claim_C4_post_failover_503 (req : InboundRequest) (random : ℚ)
    (now : Nat) (net : Provider → UpstreamOutcome)
    (hpath : req.pathname = "/dns-query")
    (hpost : req.method = "POST")
    (p : Provider) (hp : selectProvider DOH_PROVIDERS random = some p)
    (hthrow : net p = UpstreamOutcome.throws) :
    (handleRequest req random now net).1
      = textResponse "All DNS providers are unavailable" 503
    ∧ attemptedProviders (handleRequest req random now net).2
        = p :: fallbackCandidates DOH_PROVIDERS p
    ∧ fetchedProviders (handleRequest req random now net).2 = [p] := by
  have hdisp := handleRequest_valid req random now net hpath (Or.inr hpost)
    (by intro hg; rw [hpost] at hg; exact absurd hg (by decide))
  have hbb : decide (req.method = "POST") = true := by simp [hpost]
  have hfb : tryFallbackProviders req p net (decide (req.method = "POST"))
      = (textResponse "All DNS providers are unavailable" 503,
         (fallbackCandidates DOH_PROVIDERS p).map Event.attempt) := by
    rw [tryFallbackProviders, hbb]
    exact tryFallbackLoop_post req net (fallbackCandidates DOH_PROVIDERS p) hpost
  rw [hdisp, dispatchCore_throws req random now net p hp hthrow, hfb]
  refine ⟨rfl, ?_, ?_⟩
  · simp [attemptedProviders, attemptedProviders_map_attempt]
  · simp [fetchedProviders, fetchedProviders_map_attempt]

theorem claim_C4_witness :
    fetchedProviders (handleRequest samplePost 0 0 netAllThrow).2 = [cloudflareP] :=
  (claim_C4_post_failover_503 samplePost 0 0 netAllThrow rfl rfl
    cloudflareP (by decide) rfl).2.2

/-- Claim C9: every successful response — primary or failover — passes
the upstream status, status text and body through and carries the forced
headers `Access-Control-Allow-Origin: *`,
`Access-Control-Allow-Methods: GET, POST, OPTIONS`,
`Access-Control-Allow-Headers: Content-Type, Accept` and
`Cache-Control: public, max-age=300`; the `Expires` header computed as
now + 300 s is added on the primary-success path only — on the failover
path `Expires` is whatever the upstream sent. -/
theorem claim_C9_success_headers (req : InboundRequest) (random : ℚ)
    (now : Nat) (net : Provider → UpstreamOutcome)
    (hpath : req.pathname = "/dns-query")
    (hm : req.method = "GET" ∨ req.method = "POST")
    (hdns : req.method = "GET" → searchHasParam req.search "dns" = true)
    (p : Provider) (hp : selectProvider DOH_PROVIDERS random = some p) :
    (∀ uresp, net p = UpstreamOutcome.response uresp →
      (handleRequest req random now net).1.status = uresp.status
      ∧ (handleRequest req random now net).1.statusText = uresp.statusText
      ∧ (handleRequest req random now net).1.body = ResponseBody.stream uresp.body
      ∧ headerGet (handleRequest req random now net).1.headers
          "Access-Control-Allow-Origin" = some "*"
      ∧ headerGet (handleRequest req random now net).1.headers
          "Access-Control-Allow-Methods" = some "GET, POST, OPTIONS"
      ∧ headerGet (handleRequest req random now net).1.headers
          "Access-Control-Allow-Headers" = some "Content-Type, Accept"
      ∧ headerGet (handleRequest req random now net).1.headers
          "Cache-Control" = some "public, max-age=300"
      ∧ headerGet (handleRequest req random now net).1.headers
          "Expires" = some (toUTCStringModel (now + CACHE_TTL * 1000)))
    ∧ (net p = UpstreamOutcome.throws →
      ∀ (cs₁ : List Provider) (c : Provider) (cs₂ : List Provider)
        (uresp : UpstreamResponse),
        fallbackCandidates DOH_PROVIDERS p = cs₁ ++ c :: cs₂ →
        (∀ q ∈ cs₁, ∀ ur,
          attemptOutcome req (decide (req.method = "POST")) net q
            = UpstreamOutcome.response ur → respOk ur = false) →
        attemptOutcome req (decide (req.method = "POST")) net c
          = UpstreamOutcome.response uresp →
        respOk uresp = true →
        (handleRequest req random now net).1.status = uresp.status
        ∧ (handleRequest req random now net).1.statusText = uresp.statusText
        ∧ (handleRequest req random now net).1.body = ResponseBody.stream uresp.body
        ∧ headerGet (handleRequest req random now net).1.headers
            "Access-Control-Allow-Origin" = some "*"
        ∧ headerGet (handleRequest req random now net).1.headers
            "Access-Control-Allow-Methods" = some "GET, POST, OPTIONS"
        ∧ headerGet (handleRequest req random now net).1.headers
            "Access-Control-Allow-Headers" = some "Content-Type, Accept"
        ∧ headerGet (handleRequest req random now net).1.headers
            "Cache-Control" = some "public, max-age=300"
        ∧ headerGet (handleRequest req random now net).1.headers
            "Expires" = headerGet uresp.headers "Expires") := by
  have hdisp := handleRequest_valid req random now net hpath hm hdns
  constructor
  · intro uresp hresp
    rw [hdisp, dispatchCore_response req random now net p uresp hp hresp]
    refine ⟨rfl, rfl, rfl, ?_, ?_, ?_, ?_, ?_⟩
    · simp only [primaryResponse]
      rw [headerGet_set_of_ne _ _ _ _ (by decide), headerGet_corsify_allow_origin]
    · simp only [primaryResponse]
      rw [headerGet_set_of_ne _ _ _ _ (by decide), headerGet_corsify_allow_methods]
    · simp only [primaryResponse]
      rw [headerGet_set_of_ne _ _ _ _ (by decide), headerGet_corsify_allow_headers]
    · simp only [primaryResponse]
      rw [headerGet_set_of_ne _ _ _ _ (by decide), headerGet_corsify_cache_control]
    · simp only [primaryResponse]
      rw [headerGet_set_self _ _ _ _ rfl]
  · intro hthrow cs₁ c cs₂ uresp hsplit hfail hc hok
    have hb : req.method = "POST" → decide (req.method = "POST") = true :=
      fun h => by simp [h]
    have hmain := tryFallbackLoop_first_success req net cs₁ c cs₂
      (decide (req.method = "POST")) uresp hb hfail hc hok
    have hres : (tryFallbackProviders req p net (decide (req.method = "POST"))).1
        = fallbackSuccessResponse uresp := by
      rw [tryFallbackProviders, hsplit]
      exact hmain.1
    rw [hdisp, dispatchCore_throws req random now net p hp hthrow]
    rw [hres]
    exact ⟨rfl, rfl, rfl, headerGet_corsify_allow_origin _,
      headerGet_corsify_allow_methods _, headerGet_corsify_allow_headers _,
      headerGet_corsify_cache_control _, headerGet_corsify_expires _⟩

theorem claim_C9_witness :
    headerGet (handleRequest sampleGet 0 0 netOkAll).1.headers "Expires"
      = some (toUTCStringModel (0 + CACHE_TTL * 1000)) :=
  ((claim_C9_success_headers sampleGet 0 0 netOkAll rfl (Or.inl rfl)
    (fun _ => by decide) cloudflareP (by decide)).1 sampleOk rfl).2.2.2.2.2.2.2
